import Mathlib

/-!
Verification of the path-to-power game server core: a shallow embedding of the
shop transaction engine (`src/server/game/components/shop/object.js`), the item
manager's drop/pickup logic, the chat cooldown gate
(`src/server/game/components/command/commands.js`), and session authentication
(`src/server/game/components/user/manager.js`), together with proofs of the
behavioural properties claimed for them.

JavaScript side effects are modelled by explicit state passing: every operation
returns the updated state together with the ordered list of notification events
it emitted.  Fresh item fingerprints are drawn from an explicit counter, and
random draws (`dice`) are supplied by an oracle.
-/

namespace PathToPower

/-- The mutable `stats` block of an item.  Prices and cash are modelled as
integers (the JS uses doubles; every value the embedded code paths manipulate
is integral, and none of them divides). -/
structure ItemStats where
  price : Int
  stackable : Bool
  durability : Int
deriving Repr, DecidableEq

/-- An item template or instance.  `shopQuantity` uses `-1` as the infinite
sentinel; `fingerprint` is the instance-unique correlation id (a counter value
in this model); `dbId` is the optional persistence key (`_id`). -/
structure Item where
  id : String
  name : String
  itemType : String
  subtype : String
  stats : ItemStats
  shopQuantity : Int := 0
  expRequired : Int := 0
  fingerprint : Nat := 0
  dbId : Option String := none
  inventorySlot : Option Int := none
deriving Repr, DecidableEq

/-- Stat overrides applied when instantiating an item from a template.  The
only modifier the embedded call sites use is a `durability` override. -/
structure Modifiers where
  durability : Option Int := none
deriving Repr, DecidableEq

/-- JavaScript's `String.prototype.toLowerCase`, character by character. -/
def jsToLower (s : String) : String :=
  ⟨s.data.map Char.toLower⟩

/-- JavaScript's `String.prototype.trim`: strip leading and trailing
whitespace. -/
def jsTrim (s : String) : String :=
  ⟨((s.data.dropWhile Char.isWhitespace).reverse.dropWhile Char.isWhitespace).reverse⟩

/-- The template registry: `itemManager.templates`, keyed by lower-cased id. -/
abbrev Templates := String → Option Item

/-- `ItemManager.getTemplate(item_id)`: looks the id up after lower-casing. -/
def getTemplate (templates : Templates) (item_id : String) : Option Item :=
  templates (jsToLower item_id)

/-- `ItemManager.add(itemId, modifiers, dbId)`: returns `none` for an unknown
template, otherwise copies the template, copies its `stats`, applies the
modifiers as overrides and attaches the persistence key.  The fresh fingerprint
is taken from the explicit counter `fp` (in the JS the `Item` constructor draws
a uuid). -/
def ItemManager.add (templates : Templates) (fp : Nat) (itemId : String)
    (modifiers : Modifiers := {}) (dbId : Option String := none) : Option Item :=
  match getTemplate templates itemId with
  | none => none
  | some template =>
    some { template with
           stats := { template.stats with
                      durability := modifiers.durability.getD template.stats.durability },
           fingerprint := fp,
           dbId := dbId }

/-- A character's position on the map. -/
structure Location where
  map : String
  x : Int
  y : Int
deriving Repr, DecidableEq

/-- The character stat block read by the shop (`character.stats.money`,
`character.stats.exp`). -/
structure CharacterStats where
  money : Int
  exp : Int
deriving Repr, DecidableEq

/-- Modelled from the spec: the Character service collaborator (§6) — the shop
and command code read `user_id`, `name`, `stats`, `inventory` and `location`,
and query `hasRoomForItem(instance) -> bool`, here a boolean-valued field. -/
structure Character where
  user_id : String
  name : String
  stats : CharacterStats
  inventory : List Item
  location : Location
  hasRoomFn : Item → Bool

/-- Modelled from the spec: `Character.updateCash(delta)` adds `delta` to the
character's cash. -/
def Character.updateCash (c : Character) (delta : Int) : Character :=
  { c with stats := { c.stats with money := c.stats.money + delta } }

/-- Modelled from the spec: `Character.updateExp(delta)` adds `delta` to the
character's experience. -/
def Character.updateExp (c : Character) (delta : Int) : Character :=
  { c with stats := { c.stats with exp := c.stats.exp + delta } }

/-- Modelled from the spec: `Character.giveItem(instance, slotHint)` places the
instance in the character's inventory. -/
def Character.giveItem (c : Character) (item : Item) : Character :=
  { c with inventory := c.inventory ++ [item] }

/-- Modelled from the spec: `Character.hasRoomForItem(instance) -> bool`. -/
def Character.hasRoomForItem (c : Character) (item : Item) : Bool :=
  c.hasRoomFn item

/-- Modelled from the spec: `Character.getLocationId()` renders the location
key `map_y_x` used for room dispatches. -/
def Character.getLocationId (c : Character) : String :=
  c.location.map ++ "_" ++ toString c.location.y ++ "_" ++ toString c.location.x

/-- One row of the client-facing sell list produced by `getSellList(true)`. -/
structure SellListEntry where
  id : String
  name : String
  quantity : Int
  expRequired : Int
  price : Int
deriving Repr, DecidableEq

/-- The typed actions dispatched to clients (`{type, payload}` objects). -/
inductive GameAction where
  | shopUpdate (shopId : String) (inventory : List SellListEntry)
  | chatMessage (msgType : String) (user_id : String) (name : String) (message : String)
  | remoteLogout
  | authenticateError (message : String)
  | authenticateSuccess
deriving Repr, DecidableEq

/-- The notification requests emitted by the embedded operations, in emission
order.  `eventToUser`/`eventToSocket` are the orchestrator's chat-style event
helpers; the `dispatchTo*` constructors are the raw socket-manager fan-outs. -/
inductive GameEvent where
  | eventToUser (user_id : String) (kind : String) (message : String)
  | eventToSocket (socketId : Nat) (kind : String) (message : String)
  | updateClient (user_id : String)
  | dispatchToRoom (roomId : String) (action : GameAction)
  | dispatchToServer (action : GameAction)
  | dispatchToSocket (socketId : Nat) (action : GameAction)
  | dispatchToUser (user_id : String) (action : GameAction)
deriving Repr, DecidableEq

/-- A shop's `sell` configuration. -/
structure ShopSell where
  enabled : Bool
  priceMultiplier : Int
  list : List Item
deriving Repr, DecidableEq

/-- A shop's `buy` configuration. -/
structure ShopBuy where
  enabled : Bool
  priceMultiplier : Int
  list : List String
  ignoreType : List String
  ignoreSubtype : List String
  resell : Bool
deriving Repr, DecidableEq

/-- One candidate of a shop's `supply.items` pool: the item id and the
inclusive range its random `shopQuantity` is drawn from. -/
structure SupplyItem where
  id : String
  quantity : Nat × Nat
deriving Repr, DecidableEq

/-- A shop's `supply` (resupply) configuration. -/
structure Supply where
  items : List SupplyItem
  numberOfItems : Nat × Nat
  uniqueItems : Bool
deriving Repr, DecidableEq

/-- The shop state mutated by buy/sell/resupply. -/
structure Shop where
  id : String
  name : String
  sell : ShopSell
  buy : ShopBuy
  supply : Option Supply
deriving Repr, DecidableEq

/-- `Shop.getSellList(true)`: the client-facing sell list.  A missing template
would throw in the JS (`itemTemplate.stats`); `0` stands for that unreachable
price. -/
def Shop.getSellList (templates : Templates) (shop : Shop) : List SellListEntry :=
  if !shop.sell.enabled then []
  else
    shop.sell.list.map (fun item =>
      { id := item.id,
        name := item.name,
        quantity := item.shopQuantity,
        expRequired := item.expRequired,
        price := ((getTemplate templates item.id).map (fun t => t.stats.price)).getD 0 })

/-- The outcome of one shop transaction: updated shop and character state, the
emitted events in order, and the advanced fingerprint counter. -/
structure ShopOpResult where
  shop : Shop
  character : Character
  events : List GameEvent
  nextFp : Nat

/-- `Shop.buyItem(user_id, index, itemId)`, lines 250–338 of
`shop/object.js`, with the character already fetched.  The numeric `index`
(after `parseInt`) is modelled as a `Nat`; a negative or non-numeric index
reads `none` from the list just as the JS reads `undefined`.  Every early
`return` maps to an unchanged state plus the single error event it sends. -/
def Shop.buyItem (templates : Templates) (fp : Nat) (shop : Shop)
    (character : Character) (itemIndex : Nat) (itemId : String) : ShopOpResult :=
  if !shop.sell.enabled then
    ⟨shop, character,
     [.eventToUser character.user_id "error" "They are not selling anything."], fp⟩
  else
    match shop.sell.list[itemIndex]? with
    | none =>
      ⟨shop, character,
       [.eventToUser character.user_id "error" "They do not appear to have that item anymore"], fp⟩
    | some item =>
      if item.id ≠ itemId then
        ⟨shop, character,
         [.eventToUser character.user_id "error" "The item you where after is no longer available."], fp⟩
      else if character.stats.exp < item.expRequired then
        ⟨shop, character,
         [.eventToUser character.user_id "error" "You do not have a heigh enough rank to purchase this item."], fp⟩
      else
        match getTemplate templates item.id with
        | none =>
          ⟨shop, character,
           [.eventToUser character.user_id "error" "Invalid item. The item might no longer be available."], fp⟩
        | some itemTemplate =>
          let price := itemTemplate.stats.price * shop.sell.priceMultiplier
          if character.stats.money < price then
            ⟨shop, character,
             [.eventToUser character.user_id "error" "You do not have enough money."], fp⟩
          else if item.shopQuantity < 1 ∧ item.shopQuantity ≠ -1 then
            ⟨shop, character,
             [.eventToUser character.user_id "error" "They do not appear to have that item anymore"], fp⟩
          else
            match ItemManager.add templates fp item.id with
            | none => ⟨shop, character, [], fp⟩
            | some itemToAdd =>
              if !character.hasRoomForItem itemToAdd then
                ⟨shop, character,
                 [.eventToUser character.user_id "error" "You do not have enough inventory space for that item."], fp⟩
              else
                let character1 := character.updateCash (price * -1)
                let item1 :=
                  if item.shopQuantity ≠ -1 then
                    { item with shopQuantity := item.shopQuantity - 1 }
                  else item
                let shop1 :=
                  { shop with sell := { shop.sell with list := shop.sell.list.set itemIndex item1 } }
                let character2 := character1.giveItem itemToAdd
                let events1 : List GameEvent :=
                  [.updateClient character2.user_id,
                   .eventToUser character2.user_id "success"
                     ("You have purchased 1x " ++ itemTemplate.name ++ " for " ++ toString price)]
                let events2 :=
                  if item1.shopQuantity ≠ -1 then
                    events1 ++
                      [.dispatchToRoom character2.getLocationId
                        (.shopUpdate shop1.id (shop1.getSellList templates))]
                  else events1
                let shop2 :=
                  if item1.shopQuantity ≤ 0 then
                    { shop1 with sell := { shop1.sell with list := shop1.sell.list.eraseIdx itemIndex } }
                  else shop1
                ⟨shop2, character2, events2, fp + 1⟩

/-- JavaScript's `a || d` over an optional integer: `null` and the falsy `0`
both fall back to the default. -/
def jsOrInt (a : Option Int) (d : Int) : Int :=
  match a with
  | none => d
  | some x => if x = 0 then d else x

/-- `Shop.addToInventory(itemObj, amount)`, lines 203–242 of
`shop/object.js`: the stacking-merge of an instance into the sell list.  The
JS mutates the found list entry in place, modelled by `List.set` at the first
matching index. -/
def Shop.addToInventory (shop : Shop) (itemObj : Item) (amount : Option Int := none) : Shop :=
  if itemObj.stats.stackable then
    let amount := jsOrInt amount itemObj.stats.durability
    match shop.sell.list.findIdx? (fun obj => obj.id == itemObj.id) with
    | some i =>
      match shop.sell.list[i]? with
      | some inventoryItem =>
        { shop with sell := { shop.sell with
            list := shop.sell.list.set i
              { inventoryItem with shopQuantity := inventoryItem.shopQuantity + amount } } }
      | none => shop
    | none =>
      { shop with sell := { shop.sell with
          list := shop.sell.list ++ [{ itemObj with shopQuantity := amount }] } }
  else
    if shop.sell.list.any (fun obj => obj.id == itemObj.id && obj.shopQuantity == -1) then
      shop
    else
      match shop.sell.list.findIdx?
          (fun obj => obj.id == itemObj.id && obj.stats.durability == itemObj.stats.durability) with
      | some i =>
        match shop.sell.list[i]? with
        | some inventoryItem =>
          { shop with sell := { shop.sell with
              list := shop.sell.list.set i
                { inventoryItem with shopQuantity := inventoryItem.shopQuantity + 1 } } }
        | none => shop
      | none =>
        { shop with sell := { shop.sell with
            list := shop.sell.list ++ [{ itemObj with shopQuantity := jsOrInt amount 1 }] } }

/-- `Shop.sellItem(user_id, fingerprint)`, lines 113–201 of `shop/object.js`,
with the character already fetched.  A missing template would throw on
`itemTemplate.stats` in the JS; the promise's `.catch(() => {})` swallows it
with no mutation done, modelled by an unchanged state with no events.  The
stackable sale instantiates a fresh one-unit stack (advancing the fingerprint
counter), reduces the inventory item's durability and removes it at zero
(`itemManager.remove` splices the destroyed entry out of the inventory). -/
def Shop.sellItem (templates : Templates) (fp : Nat) (shop : Shop)
    (character : Character) (fingerprint : Nat) : ShopOpResult :=
  let amount : Int := 1
  if !shop.buy.enabled then
    ⟨shop, character,
     [.eventToUser character.user_id "error" "They are not interested in buying anything."], fp⟩
  else
    match character.inventory.findIdx? (fun obj => obj.fingerprint == fingerprint) with
    | none =>
      ⟨shop, character, [.eventToUser character.user_id "error" "Invalid item."], fp⟩
    | some index =>
      match character.inventory[index]? with
      | none => ⟨shop, character, [], fp⟩
      | some item =>
        if shop.buy.list.length ≠ 0 ∧ item.id ∉ shop.buy.list then
          ⟨shop, character,
           [.eventToUser character.user_id "error" "They are not interested in buying that item."], fp⟩
        else if item.itemType ∈ shop.buy.ignoreType ∨ item.subtype ∈ shop.buy.ignoreSubtype then
          ⟨shop, character,
           [.eventToUser character.user_id "error" "They are not interested in buying this type of item."], fp⟩
        else if item.stats.stackable ∧ item.stats.durability < amount then
          ⟨shop, character,
           [.eventToUser character.user_id "error" "You do not have any more of that item."], fp⟩
        else
          match getTemplate templates item.id with
          | none => ⟨shop, character, [], fp⟩
          | some itemTemplate =>
            let pricePerUnit := itemTemplate.stats.price * shop.buy.priceMultiplier
            let sold :
                Option Item × List Item × Nat :=
              if item.stats.stackable then
                let soldItem := ItemManager.add templates fp item.id { durability := some amount }
                let item1 :=
                  { item with stats := { item.stats with durability := item.stats.durability - amount } }
                let inventory1 :=
                  if item1.stats.durability ≤ 0 then
                    (character.inventory.set index item1).eraseIdx index
                  else
                    character.inventory.set index item1
                (soldItem, inventory1, fp + 1)
              else
                (some item, character.inventory.eraseIdx index, fp)
            match sold with
            | (none, _, _) => ⟨shop, character, [], fp⟩
            | (some soldItem, inventory1, fp1) =>
              let character1 :=
                { character with inventory := inventory1 }.updateCash (amount * pricePerUnit)
              let character2 :=
                if soldItem.subtype = "drug" then character1.updateExp 2 else character1
              let shop1 :=
                if shop.buy.resell then shop.addToInventory soldItem else shop
              ⟨shop1, character2,
               [.eventToUser character2.user_id "success"
                  ("You sold 1x " ++ soldItem.name ++ " for " ++ toString (amount * pricePerUnit)),
                .updateClient character2.user_id,
                .dispatchToRoom character2.getLocationId
                  (.shopUpdate shop1.id (shop1.getSellList templates))],
               fp1⟩

/-- Modelled from the spec, which is the only description of the missing
`helper.js`: `dice(min, max)` draws a random integer in the configured range.
Here the successive draws of one operation are supplied by an oracle indexed
by draw count, so `resupply` is a pure function of the oracle. -/
abbrev DiceOracle := Nat → Nat

/-- The body of the resupply `for` loop, lines 367–385 of `shop/object.js`,
run `fuel` times.  `k` counts the dice draws already consumed.  An
out-of-range index draw (`supply.items[index]` is `undefined`) or a missing
template (`itemManager.add` returns `null`) would crash the JS on the next
property access; both are modelled as `none`. -/
def Shop.resupplyLoop (templates : Templates) (rng : DiceOracle) (fp k : Nat)
    (items : List SupplyItem) (uniqueItems : Bool) (acc : List Item) :
    Nat → Option (List Item × Nat × Nat)
  | 0 => some (acc, fp, k)
  | fuel + 1 =>
    let index := rng k
    match items[index]? with
    | none => none
    | some supplyItem =>
      match ItemManager.add templates fp supplyItem.id with
      | none => none
      | some newItem =>
        let newItem := { newItem with shopQuantity := Int.ofNat (rng (k + 1)) }
        let items1 := if uniqueItems then items.eraseIdx index else items
        Shop.resupplyLoop templates rng (fp + 1) (k + 2) items1 uniqueItems
          (acc ++ [newItem]) fuel

/-- `Shop.resupply()`, lines 343–396 of `shop/object.js`: keep only the
infinite-quantity entries, then run the loop `for (i = itemsToAdd; i >= 0;
i--)`, i.e. `itemsToAdd + 1` iterations, where `itemsToAdd` is the first dice
draw (`rng 0`). -/
def Shop.resupply (templates : Templates) (rng : DiceOracle) (fp : Nat)
    (shop : Shop) : Option (Shop × Nat) :=
  match shop.supply with
  | none => some (shop, fp)
  | some supply =>
    let kept := shop.sell.list.filter (fun item => item.shopQuantity == -1)
    let itemsToAdd := rng 0
    match Shop.resupplyLoop templates rng fp 1 supply.items supply.uniqueItems kept
        (itemsToAdd + 1) with
    | none => none
    | some (list1, fp1, _) =>
      some ({ shop with sell := { shop.sell with list := list1 } }, fp1)

/-- The world drop registry `itemManager.dropped_items`: grid key → items on
the ground there, as an association list. -/
abbrev DroppedItems := List (String × List Item)

/-- The grid key `` `${map_id}_${y}_${x}` ``. -/
def gridKey (map_id : String) (x y : Int) : String :=
  map_id ++ "_" ++ toString y ++ "_" ++ toString x

/-- `ItemManager.getLocationList(map_id, x, y)`: the ground items at the grid
location, `[]` when the location was never created. -/
def getLocationList (dropped : DroppedItems) (map_id : String) (x y : Int) : List Item :=
  match dropped.lookup (gridKey map_id x y) with
  | none => []
  | some l => l

/-- Writing back the (in JS, in-place mutated) array of a grid location. -/
def setLocationList (dropped : DroppedItems) (key : String) (items : List Item) : DroppedItems :=
  dropped.map (fun kv => if kv.1 = key then (kv.1, items) else kv)

/-- Whether the second character list occurs at the head of the first. -/
def charsMatchAt : List Char → List Char → Bool
  | _, [] => true
  | [], _ :: _ => false
  | a :: as, b :: bs => a == b && charsMatchAt as bs

/-- Whether the second character list occurs anywhere inside the first. -/
def charsHaveSub : List Char → List Char → Bool
  | _, [] => true
  | [], _ :: _ => false
  | a :: as, b :: bs => charsMatchAt (a :: as) (b :: bs) || charsHaveSub as (b :: bs)

/-- JavaScript's `hay.indexOf(needle) !== -1`: substring containment. -/
def jsIncludes (hay needle : String) : Bool :=
  charsHaveSub hay.toList needle.toList

/-- The outcome of `ItemManager.pickup`: the JS returns either an error string
or an item (possibly `null`, when the partial-stack re-instantiate fails). -/
inductive PickupResult where
  | errorMsg (msg : String)
  | picked (item : Option Item)
deriving Repr, DecidableEq

/-- Lines 153–167 of the item manager's `pickup`: what happens once the target
entry has been resolved.  Non-stackable entries (and stackable ones whose
whole stack is requested) are spliced out and returned; otherwise the ground
stack's durability is reduced and a fresh partial stack is instantiated. -/
def ItemManager.pickupFound (templates : Templates) (fp : Nat) (dropped : DroppedItems)
    (key : String) (locationItems : List Item) (foundItemIndex : Nat) (foundItem : Item)
    (amount : Int) : PickupResult × DroppedItems × Nat :=
  if !foundItem.stats.stackable then
    (.picked (some foundItem),
     setLocationList dropped key (locationItems.eraseIdx foundItemIndex), fp)
  else if foundItem.stats.durability ≤ amount then
    (.picked (some foundItem),
     setLocationList dropped key (locationItems.eraseIdx foundItemIndex), fp)
  else
    let reduced :=
      { foundItem with stats := { foundItem.stats with
          durability := foundItem.stats.durability - amount } }
    (.picked (ItemManager.add templates fp foundItem.id { durability := some amount }),
     setLocationList dropped key (locationItems.set foundItemIndex reduced), fp + 1)

/-- `ItemManager.pickup(map_id, x, y, itemName, amount)`, lines 120–167 of the
item manager: resolve the target by exact lower-cased name equality first,
falling back to `indexOf(itemName) !== -1` (substring containment), then hand
over to `pickupFound`. -/
def ItemManager.pickup (templates : Templates) (fp : Nat) (dropped : DroppedItems)
    (map_id : String) (x y : Int) (itemName : Option String) (amount : Int) :
    PickupResult × DroppedItems × Nat :=
  let key := gridKey map_id x y
  let locationItems := getLocationList dropped map_id x y
  if locationItems.length = 0 then
    (.errorMsg "No items at the location", dropped, fp)
  else
    let found : Option Nat :=
      match itemName with
      | some q =>
        let q := jsToLower q
        match locationItems.findIdx? (fun obj => jsToLower obj.name == q) with
        | some i => some i
        | none => locationItems.findIdx? (fun obj => jsIncludes (jsToLower obj.name) q)
      | none => some 0
    match found with
    | none => (.errorMsg "Item not found", dropped, fp)
    | some foundItemIndex =>
      match locationItems[foundItemIndex]? with
      | none => (.errorMsg "Item not found", dropped, fp)
      | some foundItem =>
        ItemManager.pickupFound templates fp dropped key locationItems foundItemIndex
          foundItem amount

/-- Modelled from the spec: one Cooldown Tracker entry — the missing
`cooldown/manager.js` keeps, per actor and action key, the ticks remaining. -/
structure CooldownEntry where
  user_id : String
  action : String
  ticks : Nat
deriving Repr, DecidableEq

/-- Modelled from the spec: the Cooldown Tracker's state (§4.2). -/
abbrev CooldownState := List CooldownEntry

/-- Modelled from the spec: `ticksLeft(actor, key)` is the remaining tick
count, `0`/falsy when idle. -/
def CooldownManager.ticksLeft (cds : CooldownState) (user_id action : String) : Nat :=
  match cds.find? (fun e => e.user_id == user_id && e.action == action) with
  | some e => e.ticks
  | none => 0

/-- Modelled from the spec: `add(actor, key, explicitDuration, useDefault)`
sets the entry's ticks to `explicitDuration` if given, else to the action's
configured default when `useDefault` is true, else is a silent no-op. -/
def CooldownManager.add (cds : CooldownState) (user_id action : String)
    (explicitDuration : Option Nat) (useDefault : Bool) (defaultDuration : Nat) :
    CooldownState :=
  match explicitDuration with
  | some d =>
    cds.filter (fun e => !(e.user_id == user_id && e.action == action)) ++ [⟨user_id, action, d⟩]
  | none =>
    if useDefault then
      cds.filter (fun e => !(e.user_id == user_id && e.action == action)) ++
        [⟨user_id, action, defaultDuration⟩]
    else cds

/-- The wait error `checkChatCooldown` sends while the cooldown is active.
The JS renders `ticksLeft / 10` with float division; the exact rendering is
not relied upon, only the event's kind. -/
def chatWaitError (user_id : String) (ticks : Nat) : GameEvent :=
  .eventToUser user_id "error"
    ("You must wait another " ++ toString (ticks / 10) ++
     " seconds before you can send another message.")

/-- `checkChatCooldown(character, Game, callback)`, lines 3–16 of
`command/commands.js`: reject with the wait error while ticks remain,
otherwise add the default-duration `chat` cooldown and only then run the
callback (whose dispatches are passed in as `callbackEvents`). -/
def checkChatCooldown (defaultDuration : Nat) (cds : CooldownState) (character : Character)
    (callbackEvents : List GameEvent) : CooldownState × List GameEvent :=
  let ticks := CooldownManager.ticksLeft cds character.user_id "chat"
  if ticks ≠ 0 then
    (cds, [chatWaitError character.user_id ticks])
  else
    (CooldownManager.add cds character.user_id "chat" none true defaultDuration,
     callbackEvents)

/-- `params.join(' ')`. -/
def joinWords (params : List String) : String :=
  String.intercalate " " params

/-- `cmdGlobal`, lines 18–42 of `command/commands.js` (the character already
fetched).  Note the dispatched message is the *untrimmed* `params.join(' ')`. -/
def cmdGlobal (defaultDuration : Nat) (cds : CooldownState) (socketId : Nat)
    (character : Character) (params : List String) : CooldownState × List GameEvent :=
  let message := jsTrim (joinWords params)
  if message.length = 0 then
    (cds, [.eventToSocket socketId "error"
      "You must specify a message to send. Syntax: /g <message>"])
  else
    checkChatCooldown defaultDuration cds character
      [.dispatchToServer
        (.chatMessage "global" character.user_id character.name (joinWords params))]

/-- `cmdSay`, lines 44–68 of `command/commands.js` (the character already
fetched). -/
def cmdSay (defaultDuration : Nat) (cds : CooldownState) (socketId : Nat)
    (character : Character) (params : List String) : CooldownState × List GameEvent :=
  let message := jsTrim (joinWords params)
  if message.length = 0 then
    (cds, [.eventToSocket socketId "error"
      "You must specify a message to send. Syntax: /s <message>"])
  else
    checkChatCooldown defaultDuration cds character
      [.dispatchToRoom
        (character.location.map ++ "_" ++ toString character.location.y ++ "_" ++
         toString character.location.x)
        (.chatMessage "local" character.user_id character.name message)]

/-- `cmdWhisper`, lines 70–97 of `command/commands.js`: the dispatcher has
already resolved `params[0]` to the target character and `params[1]` is the
message. -/
def cmdWhisper (defaultDuration : Nat) (cds : CooldownState) (socketId : Nat)
    (player : Character) (whisperTarget : Character) (message : String) :
    CooldownState × List GameEvent :=
  checkChatCooldown defaultDuration cds player
    [.dispatchToSocket socketId
      (.chatMessage "whisper-out" whisperTarget.user_id whisperTarget.name message),
     .dispatchToUser whisperTarget.user_id
      (.chatMessage "whisper-in" player.user_id player.name message)]

/-- One connected client of the socket manager: the socket id and, once
authenticated, the account's user id tag (`socket.user.user_id`). -/
structure Socket where
  id : Nat
  user : Option String
deriving Repr, DecidableEq

/-- The socket manager's list of active clients. -/
structure SocketManagerState where
  clients : List Socket
deriving Repr, DecidableEq

/-- Modelled from the spec: `socketManager.logoutOutSession(socket, user_id)`
(the socket manager is not part of the shown sources) — §4.5: establishing a
new session for an already-connected account forcibly terminates the prior
session, delivering it a remote-logout event. -/
def SocketManager.logoutOutSession (sm : SocketManagerState) (user_id : String) :
    SocketManagerState × List GameEvent :=
  (⟨sm.clients.filter (fun s => !(s.user == some user_id))⟩,
   (sm.clients.filter (fun s => s.user == some user_id)).map
     (fun s => .dispatchToSocket s.id .remoteLogout))

/-- `UserManager.authenticate(socket, action)`, lines 48–107 of
`user/manager.js`.  `decoded` is the outcome of `jwt.verify` (the token's user
id claim), and `findUser` stands for the `UserModel.findOneAsync` lookup; both
collaborators are external to the core.  On success the prior session is
logged out, then the socket is tagged and added to the active clients, then
the success action is sent. -/
def UserManager.authenticate (sm : SocketManagerState) (socket : Socket)
    (decoded : Option String) (findUser : String → Option String) :
    SocketManagerState × List GameEvent :=
  match decoded with
  | none =>
    (sm, [.dispatchToSocket socket.id
      (.authenticateError "Invalid authentication token. Please try again.")])
  | some decodedId =>
    match findUser decodedId with
    | none =>
      (sm, [.dispatchToSocket socket.id
        (.authenticateError "Invalid authentication token. Please try again.")])
    | some user_id =>
      let out := SocketManager.logoutOutSession sm user_id
      let newSocket := { socket with user := some user_id }
      (⟨out.1.clients ++ [newSocket]⟩,
       out.2 ++ [.dispatchToSocket socket.id .authenticateSuccess])

/-- Invariant: every sell-list entry is either the infinite sentinel `-1` or
has nonnegative stock. -/
def sellListNonNegative (shop : Shop) : Prop :=
  ∀ item ∈ shop.sell.list, item.shopQuantity = -1 ∨ 0 ≤ item.shopQuantity

/-- A sequence of `buyItem` calls folded over the shop state: each call brings
its own buyer and arguments, and the fingerprint counter is threaded through. -/
def buySequence (templates : Templates) (shop : Shop) (fp : Nat)
    (calls : List (Character × Nat × String)) : Shop × Nat :=
  calls.foldl
    (fun acc call =>
      let r := Shop.buyItem templates acc.2 acc.1 call.1 call.2.1 call.2.2
      (r.shop, r.nextFp))
    (shop, fp)

/-- Invariant: at most one sell-list entry per stackable item id. -/
def atMostOneStackablePerId (l : List Item) : Prop :=
  ∀ s : String, l.countP (fun e => e.id == s && e.stats.stackable) ≤ 1

/-- Whether an event carries a `CHAT_MESSAGE` action to any audience. -/
def isChatDispatch : GameEvent → Bool
  | .dispatchToRoom _ (.chatMessage _ _ _ _) => true
  | .dispatchToServer (.chatMessage _ _ _ _) => true
  | .dispatchToSocket _ (.chatMessage _ _ _ _) => true
  | .dispatchToUser _ (.chatMessage _ _ _ _) => true
  | _ => false

/-- Invariant: at most one active client per authenticated account. -/
def uniqueSessions (sm : SocketManagerState) : Prop :=
  ∀ u : String, sm.clients.countP (fun s => s.user == some u) ≤ 1

/-! Concrete instances used by the scenario claims and the witnesses. -/

/-- The "bread" template of the spec's §8 purchase scenario: price 5,
non-stackable. -/
def breadTemplate : Item :=
  { id := "bread", name := "Bread", itemType := "food", subtype := "snack",
    stats := { price := 5, stackable := false, durability := 1 } }

/-- A stackable template, for the stacking-merge witnesses. -/
def ammoTemplate : Item :=
  { id := "ammo", name := "9mm Ammo", itemType := "weapon", subtype := "ammo",
    stats := { price := 2, stackable := true, durability := 10 } }

/-- A template registry holding `bread` and `ammo`. -/
def breadTemplates : Templates := fun s =>
  if s = "bread" then some breadTemplate
  else if s = "ammo" then some ammoTemplate
  else none

/-- The §8 scenario's shop: selling exactly one bread at multiplier 1. -/
def breadShop : Shop :=
  { id := "shop1", name := "Bakery",
    sell := { enabled := true, priceMultiplier := 1,
              list := [{ breadTemplate with shopQuantity := 1, fingerprint := 1 }] },
    buy := { enabled := false, priceMultiplier := 1, list := [],
             ignoreType := [], ignoreSubtype := [], resell := false },
    supply := none }

/-- The §8 scenario's buyer: cash 10, empty inventory, room for anything. -/
def breadBuyer : Character :=
  { user_id := "u1", name := "Alice", stats := { money := 10, exp := 0 },
    inventory := [], location := { map := "m", x := 0, y := 0 },
    hasRoomFn := fun _ => true }

/-- The same buyer with a full inventory (`hasRoomForItem` always false). -/
def fullBuyer : Character :=
  { breadBuyer with hasRoomFn := fun _ => false }

/-- The §8 purchase scenario: `buy(actor, 0, "bread")` against `breadShop`. -/
def breadScenario : ShopOpResult :=
  Shop.buyItem breadTemplates 100 breadShop breadBuyer 0 "bread"

/-- `breadShop` with its single entry sold out (`shopQuantity` 0). -/
def soldOutShop : Shop :=
  { breadShop with sell := { breadShop.sell with
      list := [{ breadTemplate with shopQuantity := 0, fingerprint := 1 }] } }

/-- A shop ready to resupply: empty sell list, one candidate, `numberOfItems`
range `[0, 0]`. -/
def supplyShop : Shop :=
  { id := "shop2", name := "Market",
    sell := { enabled := true, priceMultiplier := 1, list := [] },
    buy := { enabled := false, priceMultiplier := 1, list := [],
             ignoreType := [], ignoreSubtype := [], resell := false },
    supply := some { items := [{ id := "bread", quantity := (1, 1) }],
                     numberOfItems := (0, 0), uniqueItems := false } }

/-- The dice oracle that always rolls 0. -/
def zeroOracle : DiceOracle := fun _ => 0

/-- What one `resupply` pass of `supplyShop` under `zeroOracle` produces. -/
def supplyShopAfter : Shop :=
  { supplyShop with sell := { supplyShop.sell with
      list := [{ breadTemplate with shopQuantity := 0, fingerprint := 100 }] } }

/-- A ground location holding a single (non-stackable) bread. -/
def breadGround : DroppedItems :=
  [("m_0_0", [{ breadTemplate with fingerprint := 7 }])]

/-- A shop whose sell list carries an infinite-quantity bread entry. -/
def infiniteBreadShop : Shop :=
  { breadShop with sell := { breadShop.sell with
      list := [{ breadTemplate with shopQuantity := -1, fingerprint := 1 }] } }

/-- A shop with the buy side enabled, for the sell-path witnesses. -/
def buyingShop : Shop :=
  { breadShop with buy := { enabled := true, priceMultiplier := 1, list := [],
                            ignoreType := [], ignoreSubtype := [], resell := false } }

/-- A shop selling a stack of 5 ammo, for the stackable-merge witness. -/
def ammoShop : Shop :=
  { breadShop with sell := { breadShop.sell with
      list := [{ ammoTemplate with shopQuantity := 5, fingerprint := 2 }] } }

/-- A cooldown state in which `u1`'s chat cooldown has 5 ticks left. -/
def chatCooldowns : CooldownState := [⟨"u1", "chat", 5⟩]

/-- A second character, used as a whisper target. -/
def bobChar : Character :=
  { user_id := "u2", name := "Bob", stats := { money := 0, exp := 0 },
    inventory := [], location := { map := "m", x := 1, y := 1 },
    hasRoomFn := fun _ => true }

/-- A socket already authenticated as account `acc1`. -/
def oldSession : Socket := { id := 1, user := some "acc1" }

/-- A fresh, unauthenticated socket. -/
def newSession : Socket := { id := 2, user := none }

/-- A socket-manager state with `acc1`'s prior session connected. -/
def oneSessionState : SocketManagerState := ⟨[oldSession]⟩

/-! ## Theorems -/

/-- C1: when the shop is selling, the indexed entry matches the expected id,
rank, cash, template and stock checks all pass, but the buyer has no room for
the freshly instantiated item, `buyItem` emits only the no-inventory-space
error and leaves the shop (in particular the entry's `shopQuantity`) and the
character (cash and inventory) completely unchanged: the capacity check
precedes every mutation. -/
theorem buyItem_noInventorySpace_preserves_state
    (templates : Templates) (fp : Nat) (shop : Shop) (character : Character)
    (itemIndex : Nat) (itemId : String) (item itemTemplate itemToAdd : Item)
    (hEnabled : shop.sell.enabled = true)
    (hEntry : shop.sell.list[itemIndex]? = some item)
    (hId : item.id = itemId)
    (hExp : ¬ character.stats.exp < item.expRequired)
    (hTemplate : getTemplate templates item.id = some itemTemplate)
    (hCash : ¬ character.stats.money < itemTemplate.stats.price * shop.sell.priceMultiplier)
    (hStock : ¬ (item.shopQuantity < 1 ∧ item.shopQuantity ≠ -1))
    (hAdd : ItemManager.add templates fp item.id = some itemToAdd)
    (hRoom : character.hasRoomForItem itemToAdd = false) :
    Shop.buyItem templates fp shop character itemIndex itemId =
      ⟨shop, character,
       [.eventToUser character.user_id "error"
          "You do not have enough inventory space for that item."], fp⟩ := by
  subst hId
  simp only [Shop.buyItem, hEnabled, Bool.not_true, Bool.false_eq_true, if_false, hEntry,
    ne_eq, not_true_eq_false, hExp, hTemplate, hCash, hStock, hAdd, hRoom, Bool.not_false,
    if_true, ite_false, ite_true]

/-- C1 witness: the scenario buyer with a full inventory is rejected with the
no-inventory-space error and nothing changes. -/
theorem buyItem_noInventorySpace_preserves_state_witness :
    Shop.buyItem breadTemplates 100 breadShop fullBuyer 0 "bread" =
      ⟨breadShop, fullBuyer,
       [.eventToUser "u1" "error"
          "You do not have enough inventory space for that item."], 100⟩ :=
  buyItem_noInventorySpace_preserves_state breadTemplates 100 breadShop fullBuyer 0 "bread"
    { breadTemplate with shopQuantity := 1, fingerprint := 1 } breadTemplate
    { breadTemplate with fingerprint := 100 }
    (by decide) (by decide) (by decide) (by decide) (by decide) (by decide) (by decide)
    (by decide) (by decide)

/-- C7: selling with a fingerprint matching nothing in the inventory (buy
side enabled) emits exactly one error event and leaves both the character
(cash, experience, inventory) and the shop (sell and buy lists) untouched. -/
theorem sellItem_unknown_fingerprint_no_mutation
    (templates : Templates) (fp : Nat) (shop : Shop) (character : Character)
    (fingerprint : Nat)
    (hbuy : shop.buy.enabled = true)
    (hmiss : ∀ item ∈ character.inventory, item.fingerprint ≠ fingerprint) :
    Shop.sellItem templates fp shop character fingerprint =
      ⟨shop, character, [.eventToUser character.user_id "error" "Invalid item."], fp⟩ := by
  have hidx : character.inventory.findIdx? (fun obj => obj.fingerprint == fingerprint) = none := by
    rw [List.findIdx?_eq_none_iff]
    intro item hmem
    simpa using hmiss item hmem
  simp only [Shop.sellItem, hbuy, Bool.not_true, Bool.false_eq_true, if_false, hidx]

/-- C7 witness: fingerprint 55 is in nobody's inventory; the buying shop and
the character come back unchanged. -/
theorem sellItem_unknown_fingerprint_no_mutation_witness :
    Shop.sellItem breadTemplates 100 buyingShop breadBuyer 55 =
      ⟨buyingShop, breadBuyer, [.eventToUser "u1" "error" "Invalid item."], 100⟩ :=
  sellItem_unknown_fingerprint_no_mutation breadTemplates 100 buyingShop breadBuyer 55
    (by decide) (by decide)

/-- `jsOrInt` agrees with `Option.getD` whenever the argument is not the falsy
`some 0`. -/
theorem jsOrInt_eq_getD (a : Option Int) (d : Int) (h : a ≠ some 0) :
    jsOrInt a d = a.getD d := by
  cases a with
  | none => rfl
  | some x =>
    have hx : x ≠ 0 := fun hx => h (by rw [hx])
    simp [jsOrInt, hx]

/-- Replacing a list element by one with the same predicate value leaves the
predicate count unchanged. -/
theorem countP_set_of_pred_eq {α : Type} (p : α → Bool) :
    ∀ (l : List α) (i : Nat) (a b : α), l[i]? = some a → p b = p a →
      (l.set i b).countP p = l.countP p := by
  intro l
  induction l with
  | nil => intro i a b h _; simp at h
  | cons x xs ih =>
    intro i a b hget hpred
    cases i with
    | zero =>
      simp only [List.getElem?_cons_zero, Option.some.injEq] at hget
      subst hget
      simp [List.countP_cons, hpred]
    | succ n =>
      simp only [List.getElem?_cons_succ] at hget
      simp [List.countP_cons, ih n a b hget hpred]

/-- C6: merging a non-stackable instance into the sell list: an existing
infinite-quantity entry with the same id absorbs it as a no-op; otherwise an
entry with identical id and durability has its `shopQuantity` bumped by
exactly 1 in place; otherwise the instance is appended with `shopQuantity`
equal to the given amount, defaulting to 1. -/
theorem addToInventory_nonstackable_merge
    (shop : Shop) (itemObj : Item) (amount : Option Int)
    (hns : itemObj.stats.stackable = false)
    (hamt : amount ≠ some 0) :
    ((∃ e ∈ shop.sell.list, e.id = itemObj.id ∧ e.shopQuantity = -1) →
      Shop.addToInventory shop itemObj amount = shop)
    ∧ ((¬ ∃ e ∈ shop.sell.list, e.id = itemObj.id ∧ e.shopQuantity = -1) →
      ∀ i e, shop.sell.list.findIdx?
          (fun obj => obj.id == itemObj.id && obj.stats.durability == itemObj.stats.durability)
            = some i →
        shop.sell.list[i]? = some e →
        (Shop.addToInventory shop itemObj amount).sell.list =
          shop.sell.list.set i { e with shopQuantity := e.shopQuantity + 1 })
    ∧ ((¬ ∃ e ∈ shop.sell.list, e.id = itemObj.id ∧ e.shopQuantity = -1) →
      shop.sell.list.findIdx?
          (fun obj => obj.id == itemObj.id && obj.stats.durability == itemObj.stats.durability)
            = none →
      (Shop.addToInventory shop itemObj amount).sell.list =
        shop.sell.list ++ [{ itemObj with shopQuantity := amount.getD 1 }]) := by
  have hany : (shop.sell.list.any (fun obj => obj.id == itemObj.id && obj.shopQuantity == -1))
      ↔ ∃ e ∈ shop.sell.list, e.id = itemObj.id ∧ e.shopQuantity = -1 := by
    simp [List.any_eq_true]
  refine ⟨?_, ?_, ?_⟩
  · intro hex
    simp only [Shop.addToInventory, hns, Bool.false_eq_true, if_false, hany.mpr hex, if_true]
  · intro hnex i e hidx hget
    have hanyf : (shop.sell.list.any (fun obj => obj.id == itemObj.id && obj.shopQuantity == -1))
        = false := by
      rw [← Bool.not_eq_true]
      exact fun h => hnex (hany.mp h)
    simp only [Shop.addToInventory, hns, Bool.false_eq_true, if_false, hanyf, hidx, hget]
  · intro hnex hidx
    have hanyf : (shop.sell.list.any (fun obj => obj.id == itemObj.id && obj.shopQuantity == -1))
        = false := by
      rw [← Bool.not_eq_true]
      exact fun h => hnex (hany.mp h)
    simp only [Shop.addToInventory, hns, Bool.false_eq_true, if_false, hanyf, hidx,
      jsOrInt_eq_getD amount 1 hamt]

/-- C6 witness: merging a fresh bread into a shop already selling bread at
infinite quantity discards the incoming instance. -/
theorem addToInventory_nonstackable_merge_witness :
    Shop.addToInventory infiniteBreadShop { breadTemplate with fingerprint := 9 } none
      = infiniteBreadShop :=
  (addToInventory_nonstackable_merge infiniteBreadShop
      { breadTemplate with fingerprint := 9 } none (by decide) (by decide)).1
    (by decide)

/-- C10: merging a stackable instance whose id is already on the sell list
bumps that entry's `shopQuantity` in place by the given amount (defaulting to
the incoming stack's durability) without pushing anything; and the merge
preserves the at-most-one-entry-per-stackable-id invariant in every case. -/
theorem addToInventory_stackable_unique_id
    (shop : Shop) (itemObj : Item) (amount : Option Int)
    (hst : itemObj.stats.stackable = true)
    (hamt : amount ≠ some 0) :
    (∀ i e, shop.sell.list.findIdx? (fun obj => obj.id == itemObj.id) = some i →
        shop.sell.list[i]? = some e →
        (Shop.addToInventory shop itemObj amount).sell.list =
          shop.sell.list.set i
            { e with shopQuantity := e.shopQuantity + amount.getD itemObj.stats.durability })
    ∧ (atMostOneStackablePerId shop.sell.list →
        atMostOneStackablePerId (Shop.addToInventory shop itemObj amount).sell.list) := by
  constructor
  · intro i e hidx hget
    simp only [Shop.addToInventory, hst, if_true, jsOrInt_eq_getD amount _ hamt, hidx, hget]
  · intro hinv s
    simp only [Shop.addToInventory, hst, if_true]
    split
    next i hidx =>
      split
      next e hget =>
        simp only
        rw [countP_set_of_pred_eq (fun e => e.id == s && e.stats.stackable)
          shop.sell.list i e _ hget (by simp)]
        exact hinv s
      next hnone => exact hinv s
    next hidx =>
      simp only [List.countP_append]
      have hnone := List.findIdx?_eq_none_iff.mp hidx
      by_cases hs : itemObj.id = s
      · have hzero : shop.sell.list.countP (fun e => e.id == s && e.stats.stackable) = 0 := by
          rw [List.countP_eq_zero]
          intro e hmem
          have hne := hnone e hmem
          simp only [beq_eq_false_iff_ne, ne_eq] at hne
          simp [hs ▸ hne]
        rw [hzero]
        simpa using List.countP_le_length
          (p := fun e => e.id == s && e.stats.stackable)
          (l := [{ itemObj with shopQuantity := jsOrInt amount itemObj.stats.durability }])
      · have hone : (List.countP (fun e => e.id == s && e.stats.stackable)
            [{ itemObj with shopQuantity := jsOrInt amount itemObj.stats.durability }]) = 0 := by
          simp [List.countP_cons, hs]
        rw [hone]
        simpa using hinv s

/-- C10 witness: merging 10 more ammo (durability 10, no explicit amount)
into the shop selling a stack of 5 turns that entry into 15 without pushing a
second entry. -/
theorem addToInventory_stackable_unique_id_witness :
    (Shop.addToInventory ammoShop { ammoTemplate with fingerprint := 3 } none).sell.list =
      [{ ammoTemplate with shopQuantity := 15, fingerprint := 2 }] :=
  (addToInventory_stackable_unique_id ammoShop { ammoTemplate with fingerprint := 3 } none
      (by decide) (by decide)).1 0
    { ammoTemplate with shopQuantity := 5, fingerprint := 2 } (by decide) (by decide)

/-- Erasing the index that was just overwritten is the same as erasing the
original element. -/
theorem eraseIdx_set_self {α : Type} : ∀ (l : List α) (i : Nat) (a : α),
    (l.set i a).eraseIdx i = l.eraseIdx i := by
  intro l
  induction l with
  | nil => intro i a; rfl
  | cons x xs ih =>
    intro i a
    cases i with
    | zero => rfl
    | succ n => simp [ih]

/-- One `buyItem` call preserves the nonnegative-stock invariant, whatever
its arguments and outcome. -/
theorem buyItem_step_nonneg (templates : Templates) (fp : Nat) (shop : Shop)
    (character : Character) (itemIndex : Nat) (itemId : String)
    (h : sellListNonNegative shop) :
    sellListNonNegative (Shop.buyItem templates fp shop character itemIndex itemId).shop := by
  simp only [Shop.buyItem]
  split
  · exact h
  split
  · exact h
  next item hEntry =>
    split
    · exact h
    split
    · exact h
    split
    · exact h
    next itemTemplate hTemplate =>
      split
      · exact h
      split
      next hOut => exact h
      next hStock =>
        split
        · exact h
        next itemToAdd hAdd =>
          split
          · exact h
          next hRoom =>
            have hitem : item ∈ shop.sell.list := List.getElem?_mem hEntry
            have hq := h item hitem
            simp only
            split
            next hne =>
              split
              next hzero =>
                intro x hx
                have hx1 := List.eraseIdx_subset _ _ hx
                rcases List.mem_or_eq_of_mem_set hx1 with hmem | hx2
                · exact h x hmem
                · subst hx2; dsimp only; omega
              next hpos =>
                intro x hx
                rcases List.mem_or_eq_of_mem_set hx with hmem | hx2
                · exact h x hmem
                · subst hx2; dsimp only; omega
            next hne =>
              split
              next hzero =>
                intro x hx
                have hx1 := List.eraseIdx_subset _ _ hx
                rcases List.mem_or_eq_of_mem_set hx1 with hmem | hx2
                · exact h x hmem
                · subst hx2; exact hq
              next hpos =>
                intro x hx
                rcases List.mem_or_eq_of_mem_set hx with hmem | hx2
                · exact h x hmem
                · subst hx2; exact hq

/-- C2: (1) over any sequence of `buyItem` calls the sell list's finite
`shopQuantity` values never go negative; (2) buying an entry whose finite
stock is below 1 (every earlier check passing) fails with the out-of-stock
error and changes nothing; (3) a successful purchase of an entry at stock 1
removes that entry from the sell list before the call completes. -/
theorem buyItem_shopQuantity_nonnegative :
    (∀ (templates : Templates) (shop : Shop) (fp : Nat)
        (calls : List (Character × Nat × String)),
      sellListNonNegative shop →
      sellListNonNegative (buySequence templates shop fp calls).1)
    ∧ (∀ (templates : Templates) (fp : Nat) (shop : Shop) (character : Character)
        (itemIndex : Nat) (itemId : String) (item itemTemplate : Item),
      shop.sell.enabled = true →
      shop.sell.list[itemIndex]? = some item →
      item.id = itemId →
      ¬ character.stats.exp < item.expRequired →
      getTemplate templates item.id = some itemTemplate →
      ¬ character.stats.money < itemTemplate.stats.price * shop.sell.priceMultiplier →
      item.shopQuantity < 1 → item.shopQuantity ≠ -1 →
      Shop.buyItem templates fp shop character itemIndex itemId =
        ⟨shop, character,
         [.eventToUser character.user_id "error"
            "They do not appear to have that item anymore"], fp⟩)
    ∧ (∀ (templates : Templates) (fp : Nat) (shop : Shop) (character : Character)
        (itemIndex : Nat) (itemId : String) (item itemTemplate itemToAdd : Item),
      shop.sell.enabled = true →
      shop.sell.list[itemIndex]? = some item →
      item.id = itemId →
      ¬ character.stats.exp < item.expRequired →
      getTemplate templates item.id = some itemTemplate →
      ¬ character.stats.money < itemTemplate.stats.price * shop.sell.priceMultiplier →
      item.shopQuantity = 1 →
      ItemManager.add templates fp item.id = some itemToAdd →
      character.hasRoomForItem itemToAdd = true →
      (Shop.buyItem templates fp shop character itemIndex itemId).shop.sell.list =
        shop.sell.list.eraseIdx itemIndex) := by
  refine ⟨?_, ?_, ?_⟩
  · intro templates shop fp calls
    induction calls generalizing shop fp with
    | nil => intro h; exact h
    | cons c cs ih =>
      intro h
      exact ih _ _ (buyItem_step_nonneg templates fp shop c.1 c.2.1 c.2.2 h)
  · intro templates fp shop character itemIndex itemId item itemTemplate
      hEnabled hEntry hId hExp hTemplate hCash hLow hFin
    subst hId
    have hStock : item.shopQuantity < 1 ∧ item.shopQuantity ≠ -1 := ⟨hLow, hFin⟩
    simp only [Shop.buyItem, hEnabled, Bool.not_true, Bool.false_eq_true, if_false, hEntry,
      ne_eq, not_true_eq_false, hExp, hTemplate, hCash, hStock, if_true, ite_false, ite_true,
      and_self, not_false_eq_true]
  · intro templates fp shop character itemIndex itemId item itemTemplate itemToAdd
      hEnabled hEntry hId hExp hTemplate hCash hOne hAdd hRoom
    subst hId
    have hStock : ¬ (item.shopQuantity < 1 ∧ item.shopQuantity ≠ -1) := by omega
    simp only [Shop.buyItem, hEnabled, Bool.not_true, Bool.false_eq_true, if_false, hEntry,
      ne_eq, not_true_eq_false, hExp, hTemplate, hCash, hStock, hAdd, hRoom, Bool.not_true,
      if_true, ite_false, ite_true, not_false_eq_true, hOne]
    norm_num
    exact eraseIdx_set_self shop.sell.list itemIndex _

/-- C2 witness: buying the sold-out bread entry (stock 0) fails with the
out-of-stock error and changes nothing. -/
theorem buyItem_shopQuantity_nonnegative_witness :
    Shop.buyItem breadTemplates 100 soldOutShop breadBuyer 0 "bread" =
      ⟨soldOutShop, breadBuyer,
       [.eventToUser "u1" "error" "They do not appear to have that item anymore"], 100⟩ :=
  buyItem_shopQuantity_nonnegative.2.1 breadTemplates 100 soldOutShop breadBuyer 0 "bread"
    { breadTemplate with shopQuantity := 0, fingerprint := 1 } breadTemplate
    (by decide) (by decide) (by decide) (by decide) (by decide) (by decide) (by decide)
    (by decide)

/-- C3 counterexample: in the §8 bread scenario the claim asserts the
`SHOP_UPDATE` room broadcast carries the *empty* sell list.  It does not: the
JS dispatches the update (line 320) *before* splicing the sold-out entry out
(line 331), so the broadcast's inventory is the bread entry at quantity 0;
no empty-inventory update is ever dispatched. -/
theorem buyItem_bread_broadcast_counterexample :
    GameEvent.dispatchToRoom "m_0_0" (.shopUpdate "shop1" []) ∉ breadScenario.events ∧
    GameEvent.dispatchToRoom "m_0_0"
        (.shopUpdate "shop1"
          [{ id := "bread", name := "Bread", quantity := 0, expRequired := 0, price := 5 }])
      ∈ breadScenario.events := by
  decide

/-- C3 (amended): in the §8 bread scenario the buyer ends with cash 5 and one
freshly instantiated bread, the sold-out entry is removed from the sell list
by the end of the call, and the room receives a `SHOP_UPDATE` whose inventory
is the sell list as it stood at dispatch time — still holding the bread entry
at quantity 0, not the empty list. -/
theorem buyItem_bread_scenario :
    breadScenario.character.stats.money = 5 ∧
    breadScenario.character.inventory = [{ breadTemplate with fingerprint := 100 }] ∧
    breadScenario.shop.sell.list = [] ∧
    breadScenario.events =
      [.updateClient "u1",
       .eventToUser "u1" "success" "You have purchased 1x Bread for 5",
       .dispatchToRoom "m_0_0"
         (.shopUpdate "shop1"
           [{ id := "bread", name := "Bread", quantity := 0, expRequired := 0, price := 5 }])] := by
  refine ⟨by decide, by decide, by decide, by decide⟩

/-- A successful resupply loop run of `fuel` iterations appends exactly
`fuel` items after the accumulator it started from. -/
theorem resupplyLoop_length (templates : Templates) (rng : DiceOracle) :
    ∀ (fuel fp k : Nat) (items : List SupplyItem) (u : Bool) (acc out : List Item)
      (fp' k' : Nat),
      Shop.resupplyLoop templates rng fp k items u acc fuel = some (out, fp', k') →
      out.length = acc.length + fuel ∧ out.take acc.length = acc := by
  intro fuel
  induction fuel with
  | zero =>
    intro fp k items u acc out fp' k' h
    simp only [Shop.resupplyLoop, Option.some.injEq, Prod.mk.injEq] at h
    obtain ⟨rfl, -, -⟩ := h
    exact ⟨by simp, by simp⟩
  | succ n ih =>
    intro fp k items u acc out fp' k' h
    simp only [Shop.resupplyLoop] at h
    split at h
    · exact absurd h (by simp)
    next supplyItem hIdx =>
      split at h
      · exact absurd h (by simp)
      next newItem hAdd =>
        obtain ⟨h1, h2⟩ := ih _ _ _ _ _ _ _ _ h
        refine ⟨by simp at h1; omega, ?_⟩
        have h3 : out.take (acc.length + 1)
            = acc ++ [{ newItem with shopQuantity := Int.ofNat (rng (k + 1)) }] := by
          simpa using h2
        calc out.take acc.length
            = (out.take (acc.length + 1)).take acc.length := by
              rw [List.take_take]
              congr 1
              omega
          _ = (acc ++ [{ newItem with shopQuantity := Int.ofNat (rng (k + 1)) }]).take
                acc.length := by rw [h3]
          _ = acc := List.take_left ..

/-- C4 counterexample: with `numberOfItems` drawn as `N = 0` (the oracle
always rolls 0) and an empty starting list, one resupply pass appends one
entry, not the zero entries the claim's "exactly N" demands — the JS loop
`for (i = itemsToAdd; i >= 0; i--)` runs `N + 1` times. -/
theorem resupply_count_counterexample :
    Shop.resupply breadTemplates zeroOracle 100 supplyShop = some (supplyShopAfter, 101) ∧
    supplyShopAfter.sell.list.length = 1 ∧
    zeroOracle 0 = 0 ∧
    supplyShop.sell.list.filter (fun item => item.shopQuantity == -1) = [] := by
  decide

/-- C4 (amended): a resupply pass that completes keeps exactly the
infinite-quantity entries as a prefix of the new sell list and appends
exactly `N + 1` freshly drawn entries, where `N` is the single
`numberOfItems` draw made at the start of the pass (the first oracle roll). -/
theorem resupply_appends_drawn_plus_one
    (templates : Templates) (rng : DiceOracle) (fp : Nat) (shop shop' : Shop)
    (supply : Supply) (fp' : Nat)
    (hs : shop.supply = some supply)
    (h : Shop.resupply templates rng fp shop = some (shop', fp')) :
    shop'.sell.list.take
        (shop.sell.list.filter (fun item => item.shopQuantity == -1)).length
      = shop.sell.list.filter (fun item => item.shopQuantity == -1) ∧
    shop'.sell.list.length
      = (shop.sell.list.filter (fun item => item.shopQuantity == -1)).length
        + (rng 0 + 1) := by
  unfold Shop.resupply at h
  rw [hs] at h
  simp only at h
  split at h
  · exact absurd h (by simp)
  next out fp1 k1 hloop =>
    simp only [Option.some.injEq, Prod.mk.injEq] at h
    obtain ⟨hshop, -⟩ := h
    subst hshop
    obtain ⟨h1, h2⟩ := resupplyLoop_length templates rng _ _ _ _ _ _ _ _ _ hloop
    exact ⟨by simpa using h2, by simpa using h1⟩

/-- C4 witness: the counterexample scenario instantiates the amended claim
with `N = 0`: zero kept entries plus `0 + 1` appended. -/
theorem resupply_appends_drawn_plus_one_witness :
    supplyShopAfter.sell.list.take
        (supplyShop.sell.list.filter (fun item => item.shopQuantity == -1)).length
      = supplyShop.sell.list.filter (fun item => item.shopQuantity == -1) ∧
    supplyShopAfter.sell.list.length
      = (supplyShop.sell.list.filter (fun item => item.shopQuantity == -1)).length
        + (zeroOracle 0 + 1) :=
  resupply_appends_drawn_plus_one breadTemplates zeroOracle 100 supplyShop supplyShopAfter
    { items := [{ id := "bread", quantity := (1, 1) }], numberOfItems := (0, 0),
      uniqueItems := false } 101 (by decide) (by decide)

/-- C5 counterexample: the query `"read"` is neither an exact
(case-insensitive) match for the only ground item `"Bread"` nor a prefix of
it (`charsMatchAt` checks occurrence at the head), so the claim's
exact-then-prefix resolution demands the not-found failure with nothing
removed.  The code instead falls back to `indexOf(...) !== -1` — a substring
match — returns the bread and removes it from the ground. -/
theorem pickup_substring_counterexample :
    ItemManager.pickup breadTemplates 100 breadGround "m" 0 0 (some "read") 1 =
      (.picked (some { breadTemplate with fingerprint := 7 }), [("m_0_0", [])], 100) ∧
    jsToLower "Bread" ≠ jsToLower "read" ∧
    charsMatchAt (jsToLower "Bread").data (jsToLower "read").data = false := by
  decide

/-- C5 (amended): with ground items present, `pickup` resolves the target by
exact case-insensitive name equality first; failing that it falls back to a
case-insensitive *substring* containment match (`indexOf !== -1`), not a
prefix match; and when neither matches anything it fails with the
item-not-found error and removes nothing from the location. -/
theorem pickup_name_resolution
    (templates : Templates) (fp : Nat) (dropped : DroppedItems)
    (map_id : String) (x y : Int) (q : String) (amount : Int)
    (hne : getLocationList dropped map_id x y ≠ []) :
    (∀ i item,
        (getLocationList dropped map_id x y).findIdx?
            (fun obj => jsToLower obj.name == jsToLower q) = some i →
        (getLocationList dropped map_id x y)[i]? = some item →
        ItemManager.pickup templates fp dropped map_id x y (some q) amount =
          ItemManager.pickupFound templates fp dropped (gridKey map_id x y)
            (getLocationList dropped map_id x y) i item amount)
    ∧ ((getLocationList dropped map_id x y).findIdx?
          (fun obj => jsToLower obj.name == jsToLower q) = none →
      ∀ i item,
        (getLocationList dropped map_id x y).findIdx?
            (fun obj => jsIncludes (jsToLower obj.name) (jsToLower q)) = some i →
        (getLocationList dropped map_id x y)[i]? = some item →
        ItemManager.pickup templates fp dropped map_id x y (some q) amount =
          ItemManager.pickupFound templates fp dropped (gridKey map_id x y)
            (getLocationList dropped map_id x y) i item amount)
    ∧ ((getLocationList dropped map_id x y).findIdx?
          (fun obj => jsToLower obj.name == jsToLower q) = none →
      (getLocationList dropped map_id x y).findIdx?
          (fun obj => jsIncludes (jsToLower obj.name) (jsToLower q)) = none →
      ItemManager.pickup templates fp dropped map_id x y (some q) amount =
        (.errorMsg "Item not found", dropped, fp)) := by
  have hlen : ¬ (getLocationList dropped map_id x y).length = 0 := by
    simpa [List.length_eq_zero] using hne
  refine ⟨?_, ?_, ?_⟩
  · intro i item hexact hget
    simp only [ItemManager.pickup, hlen, if_false, hexact, hget, ite_false]
  · intro hexact i item hsub hget
    simp only [ItemManager.pickup, hlen, if_false, hexact, hsub, hget, ite_false]
  · intro hexact hsub
    simp only [ItemManager.pickup, hlen, if_false, hexact, hsub, ite_false]

/-- C5 witness: the substring fallback resolves `"read"` to the bread entry
at index 0 and hands it to the post-resolution splice. -/
theorem pickup_name_resolution_witness :
    ItemManager.pickup breadTemplates 100 breadGround "m" 0 0 (some "read") 1 =
      ItemManager.pickupFound breadTemplates 100 breadGround "m_0_0"
        [{ breadTemplate with fingerprint := 7 }] 0
        { breadTemplate with fingerprint := 7 } 1 :=
  (pickup_name_resolution breadTemplates 100 breadGround "m" 0 0 "read" 1 (by decide)).2.1
    (by decide) 0 { breadTemplate with fingerprint := 7 } (by decide) (by decide)

/-- `find?` never hits an element the filter just removed. -/
theorem find?_filter_not {α : Type} (p : α → Bool) :
    ∀ l : List α, (l.filter (fun e => !p e)).find? p = none := by
  intro l
  induction l with
  | nil => rfl
  | cons a as ih =>
    by_cases h : p a <;> simp [List.filter_cons, h, List.find?_cons, ih]

/-- After `add` with `useDefault`, the entry's remaining ticks are exactly the
configured default. -/
theorem ticksLeft_after_add_default (cds : CooldownState) (u a : String) (d : Nat) :
    CooldownManager.ticksLeft (CooldownManager.add cds u a none true d) u a = d := by
  unfold CooldownManager.add CooldownManager.ticksLeft
  simp only [if_true]
  rw [List.find?_append, find?_filter_not]
  simp

/-- A nonempty string has nonzero length. -/
theorem string_ne_length_ne_zero (s : String) (h : s ≠ "") : ¬ s.length = 0 := by
  cases s with
  | mk data =>
    cases data with
    | nil => exact absurd rfl h
    | cons c cs => simp [String.length]

/-- C8: while a character's `chat` cooldown has ticks remaining, none of the
say, global, or whisper commands dispatches a `CHAT_MESSAGE` to any room,
socket, user, or the server — the character gets only the wait error and the
cooldown state is untouched; once the cooldown is idle (and the message
passes the emptiness check), a fresh `chat` cooldown of the configured
default duration is recorded in the state returned alongside the single chat
dispatch. -/
theorem chat_cooldown_gates_messages
    (defaultDuration : Nat) (cds : CooldownState) (socketId : Nat)
    (character target : Character) (params : List String) (message : String) :
    (CooldownManager.ticksLeft cds character.user_id "chat" ≠ 0 →
      ((cmdSay defaultDuration cds socketId character params).2.all
          (fun e => !isChatDispatch e) = true
        ∧ (cmdGlobal defaultDuration cds socketId character params).2.all
            (fun e => !isChatDispatch e) = true
        ∧ (cmdWhisper defaultDuration cds socketId character target message).2.all
            (fun e => !isChatDispatch e) = true)
      ∧ (jsTrim (joinWords params) ≠ "" →
        cmdSay defaultDuration cds socketId character params =
          (cds, [chatWaitError character.user_id
            (CooldownManager.ticksLeft cds character.user_id "chat")])
        ∧ cmdGlobal defaultDuration cds socketId character params =
          (cds, [chatWaitError character.user_id
            (CooldownManager.ticksLeft cds character.user_id "chat")]))
      ∧ cmdWhisper defaultDuration cds socketId character target message =
        (cds, [chatWaitError character.user_id
          (CooldownManager.ticksLeft cds character.user_id "chat")]))
    ∧ (CooldownManager.ticksLeft cds character.user_id "chat" = 0 →
      jsTrim (joinWords params) ≠ "" →
      (CooldownManager.ticksLeft
          (cmdSay defaultDuration cds socketId character params).1
          character.user_id "chat" = defaultDuration
        ∧ (cmdSay defaultDuration cds socketId character params).2 =
          [.dispatchToRoom
            (character.location.map ++ "_" ++ toString character.location.y ++ "_" ++
              toString character.location.x)
            (.chatMessage "local" character.user_id character.name
              (jsTrim (joinWords params)))])
      ∧ (CooldownManager.ticksLeft
          (cmdGlobal defaultDuration cds socketId character params).1
          character.user_id "chat" = defaultDuration
        ∧ (cmdGlobal defaultDuration cds socketId character params).2 =
          [.dispatchToServer
            (.chatMessage "global" character.user_id character.name (joinWords params))])
      ∧ (CooldownManager.ticksLeft
          (cmdWhisper defaultDuration cds socketId character target message).1
          character.user_id "chat" = defaultDuration
        ∧ (cmdWhisper defaultDuration cds socketId character target message).2 =
          [.dispatchToSocket socketId
            (.chatMessage "whisper-out" target.user_id target.name message),
           .dispatchToUser target.user_id
            (.chatMessage "whisper-in" character.user_id character.name message)])) := by
  constructor
  · intro hticks
    refine ⟨⟨?_, ?_, ?_⟩, ?_, ?_⟩
    · simp only [cmdSay]
      split
      · simp [isChatDispatch]
      · simp [checkChatCooldown, hticks, isChatDispatch, chatWaitError]
    · simp only [cmdGlobal]
      split
      · simp [isChatDispatch]
      · simp [checkChatCooldown, hticks, isChatDispatch, chatWaitError]
    · simp [cmdWhisper, checkChatCooldown, hticks, isChatDispatch, chatWaitError]
    · intro hmsg
      constructor
      · simp only [cmdSay]
        rw [if_neg (string_ne_length_ne_zero _ hmsg)]
        simp [checkChatCooldown, hticks]
      · simp only [cmdGlobal]
        rw [if_neg (string_ne_length_ne_zero _ hmsg)]
        simp [checkChatCooldown, hticks]
    · simp [cmdWhisper, checkChatCooldown, hticks]
  · intro hticks hmsg
    refine ⟨⟨?_, ?_⟩, ⟨?_, ?_⟩, ?_, ?_⟩
    · simp only [cmdSay]
      rw [if_neg (string_ne_length_ne_zero _ hmsg)]
      simp [checkChatCooldown, hticks, ticksLeft_after_add_default]
    · simp only [cmdSay]
      rw [if_neg (string_ne_length_ne_zero _ hmsg)]
      simp [checkChatCooldown, hticks]
    · simp only [cmdGlobal]
      rw [if_neg (string_ne_length_ne_zero _ hmsg)]
      simp [checkChatCooldown, hticks, ticksLeft_after_add_default]
    · simp only [cmdGlobal]
      rw [if_neg (string_ne_length_ne_zero _ hmsg)]
      simp [checkChatCooldown, hticks]
    · simp [cmdWhisper, checkChatCooldown, hticks, ticksLeft_after_add_default]
    · simp [cmdWhisper, checkChatCooldown, hticks]

/-- C8 witness: with 5 ticks left on `u1`'s chat cooldown, a whisper produces
only the wait error and leaves the cooldown state unchanged. -/
theorem chat_cooldown_gates_messages_witness :
    cmdWhisper 10 chatCooldowns 3 breadBuyer bobChar "hi" =
      (chatCooldowns, [chatWaitError "u1" 5]) :=
  ((chat_cooldown_gates_messages 10 chatCooldowns 3 breadBuyer bobChar ["hi"] "hi").1
    (by decide)).2.2

/-- Filtering away every element satisfying `p` leaves a `p`-count of 0. -/
theorem countP_filter_not_self {α : Type} (p : α → Bool) :
    ∀ l : List α, (l.filter (fun s => !p s)).countP p = 0 := by
  intro l
  induction l with
  | nil => rfl
  | cons a as ih =>
    by_cases h : p a <;> simp [List.filter_cons, h, List.countP_cons, ih]

/-- Filtering never increases a `countP`. -/
theorem countP_filter_le_countP {α : Type} (p q : α → Bool) :
    ∀ l : List α, (l.filter q).countP p ≤ l.countP p := by
  intro l
  induction l with
  | nil => exact Nat.le_refl 0
  | cons a as ih =>
    by_cases hq : q a
    · by_cases hp : p a <;>
        simp [List.filter_cons, hq, List.countP_cons, hp] <;> omega
    · by_cases hp : p a <;>
        simp [List.filter_cons, hq, List.countP_cons, hp] <;> omega

/-- C9: when authentication succeeds for an account, every prior session of
that account is removed from the active-client list and sent a remote-logout
event, and those logout events all precede the success event delivered to the
new socket; the new socket is registered tagged with the account id, exactly
one session for the account remains, and the at-most-one-session-per-account
invariant is preserved for every account. -/
theorem authenticate_single_session
    (sm : SocketManagerState) (socket : Socket) (decoded : Option String)
    (findUser : String → Option String) (decodedId user_id : String)
    (hdec : decoded = some decodedId)
    (hfind : findUser decodedId = some user_id) :
    ((UserManager.authenticate sm socket decoded findUser).2 =
      ((sm.clients.filter (fun s => s.user == some user_id)).map
          (fun s => .dispatchToSocket s.id .remoteLogout)) ++
        [.dispatchToSocket socket.id .authenticateSuccess])
    ∧ ({ socket with user := some user_id }
        ∈ (UserManager.authenticate sm socket decoded findUser).1.clients)
    ∧ ((UserManager.authenticate sm socket decoded findUser).1.clients.countP
        (fun s => s.user == some user_id) = 1)
    ∧ (uniqueSessions sm →
        uniqueSessions (UserManager.authenticate sm socket decoded findUser).1)
    ∧ (∀ s ∈ sm.clients, s.user = some user_id →
        GameEvent.dispatchToSocket s.id .remoteLogout
          ∈ (UserManager.authenticate sm socket decoded findUser).2) := by
  subst hdec
  simp only [UserManager.authenticate, hfind, SocketManager.logoutOutSession]
  refine ⟨trivial, ?_, ?_, ?_, ?_⟩
  · exact List.mem_append_right _ (List.mem_singleton.mpr rfl)
  · rw [List.countP_append, countP_filter_not_self]
    simp [List.countP_cons]
  · intro hu u
    rw [List.countP_append]
    by_cases hs : u = user_id
    · subst hs
      rw [countP_filter_not_self]
      simp [List.countP_cons]
    · have h1 : (List.countP (fun s => s.user == some u) [{ socket with user := some user_id }])
          = 0 := by
        simp [List.countP_cons]
        intro hcontra
        exact absurd (congrArg some hcontra).symm (by simpa using hs)
      rw [h1]
      have h2 := countP_filter_le_countP (fun s : Socket => s.user == some u)
        (fun s => !(s.user == some user_id)) sm.clients
      have h3 := hu u
      omega
  · intro s hs hsu
    refine List.mem_append_left _ ?_
    exact List.mem_map_of_mem _ (List.mem_filter.mpr ⟨hs, by simp [hsu]⟩)

/-- C9 witness: authenticating a new socket for the already-connected account
`acc1` sends the prior session its remote logout first, then the success to
the new socket. -/
theorem authenticate_single_session_witness :
    (UserManager.authenticate oneSessionState newSession (some "tok")
        (fun _ => some "acc1")).2 =
      [.dispatchToSocket 1 .remoteLogout, .dispatchToSocket 2 .authenticateSuccess] := by
  have h := (authenticate_single_session oneSessionState newSession (some "tok")
    (fun _ => some "acc1") "tok" "acc1" rfl rfl).1
  rw [h]
  decide

end PathToPower
